import Mathlib

/-!
Shallow embedding of the webhook ingestion subsystem of the
webcompat-metrics-server repository (files src/ochazuke/webhook/__init__.py
and src/ochazuke/webhooks/helpers.py), together with theorems settling the
frozen claims about its natural-language specification.

Python values appearing in webhook payloads are modelled by the inductive
type JVal (null, bool, int, str, dict); Python None and JSON null are both
JVal.null, matching the fact that dict.get returns None both for a missing
key and for a key bound to None.  Subscripting d[k] is modelled by JVal.item,
which fails (Except.error) like the Python KeyError / TypeError it raises.
Exceptions are modelled by Except String; the string is a short description
of the Python exception raised at that point.

External collaborators are parameters, not stubs: the HMAC-SHA1 hex digest
(Python hmac/hashlib) and the JSON parser (Python json.loads) are taken as
function arguments, and hmac.compare_digest is modelled as string equality
(its constant-time nature has no functional content).  Database commits that
the source wraps in try/except are given an explicit success flag.
-/

namespace Ochazuke

/-- Python/JSON values as they occur in webhook payloads: None/null,
booleans, integers, strings and dicts (association lists).  Arrays do not
occur in any code path modelled here. -/
inductive JVal where
  | null : JVal
  | bool : Bool → JVal
  | num : Int → JVal
  | str : String → JVal
  | obj : List (String × JVal) → JVal
deriving Repr

mutual

/-- Python equality (==) restricted to the payload values above.  Two dicts
are equal when they have the same bindings in the same order; webhook
payloads never carry duplicate keys, and the source only ever compares
values against string literals, where order is irrelevant. -/
def JVal.beq : JVal → JVal → Bool
  | .null, .null => true
  | .bool a, .bool b => a == b
  | .num a, .num b => a == b
  | .str a, .str b => a == b
  | .obj a, .obj b => JVal.beqFields a b
  | _, _ => false

/-- Fieldwise comparison of two dict association lists, used by JVal.beq. -/
def JVal.beqFields : List (String × JVal) → List (String × JVal) → Bool
  | [], [] => true
  | (k1, v1) :: t1, (k2, v2) :: t2 =>
      k1 == k2 && JVal.beq v1 v2 && JVal.beqFields t1 t2
  | _, _ => false

end

instance : BEq JVal := ⟨JVal.beq⟩

/-- Python truthiness: None, False, 0, the empty string and the empty dict
are falsy; everything else is truthy. -/
def JVal.truthy : JVal → Bool
  | .null => false
  | .bool b => b
  | .num n => n != 0
  | .str s => s != ""
  | .obj [] => false
  | .obj (_ :: _) => true

/-- Python dict.get k: the bound value, or none when the receiver is not a
dict or lacks the key (Python would return None; callers of get in the
source only test the result for truthiness or use it where None is legal,
so Option none and a binding to None are interchangeable there). -/
def JVal.get : JVal → String → Option JVal
  | .obj fs, k => (fs.find? (fun p => p.1 == k)).map Prod.snd
  | _, _ => none

/-- Python subscript d[k]: the bound value, KeyError when the key is
missing, TypeError when the receiver is not a dict (e.g. None). -/
def JVal.item : JVal → String → Except String JVal
  | .obj fs, k =>
      match fs.find? (fun p => p.1 == k) with
      | some p => .ok p.2
      | none => .error ("KeyError: " ++ k)
  | _, k => .error ("TypeError: value is not subscriptable at key " ++ k)

/-- Python expression "k in d" for a dict receiver; the source only applies
it to parsed payload dicts. -/
def JVal.hasKey : JVal → String → Bool
  | .obj fs, k => (fs.find? (fun p => p.1 == k)).isSome
  | _, _ => false

/-- Python str.startswith, modelled structurally on the character lists of
the two strings (the corresponding library function is defined by
well-founded recursion and does not evaluate inside the kernel). -/
def pyStartsWith (s p : String) : Bool := p.data.isPrefixOf s.data

/-- Worker for pySplitChar: walk the characters, cutting a chunk at every
separator occurrence; adjacent separators and a trailing separator produce
empty chunks, exactly as Python str.split with an explicit separator. -/
def pySplitCharAux (c : Char) : List Char → List Char → List String
  | [], acc => [String.mk acc.reverse]
  | x :: xs, acc =>
      if x == c then String.mk acc.reverse :: pySplitCharAux c xs []
      else pySplitCharAux c xs (x :: acc)

/-- Python str.split with a single-character separator. -/
def pySplitChar (c : Char) (s : String) : List String :=
  pySplitCharAux c s.data []

/-- The equals-sign character (code point 61), the separator the source
splits the signature header on. -/
def equalsChar : Char := Char.ofNat 61

/-- helpers.signature_check: checks the HTTP POST legitimacy.  The source
unpacks post_signature.split on the equals sign into exactly two names,
so a header that starts with the sha1 prefix but contains a further equals
sign raises ValueError.  The HMAC-SHA1 hex digest of helpers
.get_payload_signature is the function argument hmacSha1Hex (key and raw
body to hex digest), and hmac.compare_digest is string equality. -/
def signature_check (hmacSha1Hex : String → List Nat → String)
    (key post_signature : String) (payload : List Nat) : Except String Bool :=
  if pyStartsWith post_signature "sha1=" then
    match pySplitChar equalsChar post_signature with
    | [_sha_name, signature] =>
        if signature == "" then
          .ok false
        else
          .ok (hmacSha1Hex key payload == signature)
    | _ => .error "ValueError: too many values to unpack"
  else
    .ok false

/-- An inbound HTTP POST request as the handler sees it: the two headers it
reads (absent header modelled as none) and the raw body bytes. -/
structure Request where
  xGitHubEvent : Option String
  xHubSignature : Option String
  data : List Nat
deriving Repr

/-- helpers.is_github_hook: reject when the X-GitHub-Event header is absent,
otherwise check the X-Hub-Signature header (falsy, i.e. absent or empty,
rejects; otherwise defer to signature_check).  The shared secret, read in
the source from process-wide app config under HOOK_SECRET_KEY, is the
secretKey argument. -/
def is_github_hook (hmacSha1Hex : String → List Nat → String)
    (secretKey : String) (req : Request) : Except String Bool :=
  match req.xGitHubEvent with
  | none => .ok false
  | some _ =>
      match req.xHubSignature with
      | some ps =>
          if ps == "" then .ok false
          else signature_check hmacSha1Hex secretKey ps req.data
      | none => .ok false

/-- helpers.is_desirable_issue_event: the seven listed actions are
desirable; an edited action is desirable when the changes map is truthy and
changes.get of title is truthy; everything else (assigned, unassigned,
unknown actions, edits without a truthy title change) is not. -/
def is_desirable_issue_event (action changes : JVal) : Bool :=
  if ["opened", "closed", "reopened", "labeled", "unlabeled",
      "milestoned", "unmilestoned"].any (fun s => action == JVal.str s) then
    true
  else if (action == JVal.str "edited") && changes.truthy then
    ((changes.get "title").getD JVal.null).truthy
  else
    false

/-- helpers.extract_issue_event_info: normalizes a raw issue payload into
the issue event info dict with keys issue_id, title, created_at, milestone,
actor, action, details and received_at.  The source guard
"action == (milestoned or demilestoned)" collapses, by the Python
or-operator on non-empty strings, to "action == milestoned", so every other
non-open/close/edit action (including unmilestoned and unlabeled) takes the
label branch and subscripts payload at the key label. -/
def extract_issue_event_info (payload action changes : JVal) :
    Except String JVal := do
  let issue ← payload.item "issue"
  let milestone ← issue.item "milestone"
  let milestone_title : JVal :=
    if milestone.truthy then (milestone.get "title").getD JVal.null
    else JVal.null
  let details : JVal ←
    if ["opened", "closed", "reopened", "edited"].any
        (fun s => action == JVal.str s) then
      if changes.truthy && ((changes.get "title").getD JVal.null).truthy then do
        let t ← changes.item "title"
        let fr ← t.item "from"
        pure (JVal.obj [("old title", fr)])
      else
        pure JVal.null
    else if action == JVal.str "milestoned" then do
      let i ← payload.item "issue"
      let m ← i.item "milestone"
      let t ← m.item "title"
      pure (JVal.obj [("milestone title", t)])
    else do
      let lab ← payload.item "label"
      let n ← lab.item "name"
      pure (JVal.obj [("label name", n)])
  let number ← (← payload.item "issue").item "number"
  let title ← (← payload.item "issue").item "title"
  let created ← (← payload.item "issue").item "created_at"
  let login ← (← payload.item "sender").item "login"
  let updated ← (← payload.item "issue").item "updated_at"
  pure (JVal.obj [("issue_id", number), ("title", title),
                  ("created_at", created), ("milestone", milestone_title),
                  ("actor", login), ("action", action),
                  ("details", details), ("received_at", updated)])

/-- Modelled from the spec: ochazuke/models.py is not under src/.  An Issue
row per section 3 of the spec and the add_new_issue docstring: tracker
number (primary key), title, creation timestamp, optional milestone
reference and open/closed status, plus the label reference set used by
issue_label_change.  Column values are JVal because the source inserts
payload values without conversion. -/
structure IssueRec where
  id : JVal
  title : JVal
  created_at : JVal
  milestone_id : JVal
  is_open : JVal
  labels : List JVal
deriving Repr

/-- Modelled from the spec: ochazuke/models.py is not under src/.  A Label
row: system-generated id and unique name. -/
structure LabelRec where
  id : Int
  name : JVal
deriving Repr

/-- Modelled from the spec: ochazuke/models.py is not under src/.  A
Milestone row: system-generated id and unique title. -/
structure MilestoneRec where
  id : Int
  title : JVal
deriving Repr

/-- Modelled from the spec: ochazuke/models.py is not under src/.  An Event
log row: issue identity, actor, action kind, detail payload and reported
timestamp (the system-generated event id plays no role in any claim). -/
structure EventRec where
  issue_id : JVal
  actor : JVal
  action : JVal
  details : JVal
  received_at : JVal
deriving Repr

/-- The persistent store the helpers mutate: the four tables plus counters
for the system-generated label and milestone ids. -/
structure DB where
  issues : List IssueRec
  labels : List LabelRec
  milestones : List MilestoneRec
  events : List EventRec
  nextLabelId : Int
  nextMilestoneId : Int
deriving Repr

/-- Issue.query.get by primary key: the first (unique) row with the given
tracker number, if any. -/
def DB.getIssue (db : DB) (iid : JVal) : Option IssueRec :=
  db.issues.find? (fun r => r.id == iid)

/-- Replace the issue row with the given tracker number by its image under
f, leaving every other row unchanged. -/
def DB.updateIssue (db : DB) (iid : JVal) (f : IssueRec → IssueRec) : DB :=
  { db with issues := db.issues.map (fun r => if r.id == iid then f r else r) }

/-- helpers.add_new_issue.  The source reads the milestone title from the
info dict and then, on a truthy title, calls Milestone.query.filter_by with
a positional argument, which raises TypeError (filter_by accepts keyword
arguments only); on a falsy title the branch is skipped and the local name
milestone is never assigned, so building the Issue row from milestone.id
raises NameError.  Either way the function raises before anything is staged
or committed, and neither exception is the SQLAlchemyError its try/except
catches. -/
def add_new_issue (db : DB) (info : JVal) : DB × Except String Unit :=
  match info.item "milestone" with
  | .error e => (db, .error e)
  | .ok mt =>
      if mt.truthy then
        (db, .error "TypeError: filter_by takes no positional argument")
      else
        (db, .error "NameError: name milestone is not defined")

/-- helpers.add_new_event: builds an Event row from the info dict and
commits it in its own transaction.  On commit failure (SQLAlchemyError) the
session is rolled back, a warning is logged, and the function returns
normally with the store unchanged.  On commit success the row is persisted,
but the success log message is built with str.format whose template names
the placeholder evg while the keyword argument is evt, so the format call
raises KeyError (not caught: the except clause only catches
SQLAlchemyError) after the commit has already happened. -/
def add_new_event (commitOk : Bool) (db : DB) (info : JVal) :
    DB × Except String Unit :=
  match (do
      let iid ← info.item "issue_id"
      let actor ← info.item "actor"
      let act ← info.item "action"
      let det ← info.item "details"
      let rcv ← info.item "received_at"
      pure (EventRec.mk iid actor act det rcv) : Except String EventRec) with
  | .error e => (db, .error e)
  | .ok ev =>
      if commitOk then
        ({ db with events := db.events ++ [ev] }, .error "KeyError: evg")
      else
        (db, .ok ())

/-- helpers.issue_title_edit: fetch the issue row by the info dict id,
overwrite its title, commit.  A missing row raises AttributeError at the
attribute assignment; a failed commit raises SQLAlchemyError (no
try/except here). -/
def issue_title_edit (commitOk : Bool) (db : DB) (info : JVal) :
    DB × Except String Unit :=
  match info.item "issue_id" with
  | .error e => (db, .error e)
  | .ok iid =>
      match info.item "title" with
      | .error e => (db, .error e)
      | .ok t =>
          match db.getIssue iid with
          | none => (db, .error "AttributeError: NoneType has no attribute title")
          | some _ =>
              if commitOk then
                (db.updateIssue iid (fun r => { r with title := t }), .ok ())
              else
                (db, .error "SQLAlchemyError")

/-- helpers.issue_status_change: fetch the issue row, look the action up in
the dict mapping closed to False and reopened to True (KeyError for any
other action), assign is_open, commit.  A missing row raises AttributeError
at the assignment; a failed commit raises SQLAlchemyError. -/
def issue_status_change (commitOk : Bool) (db : DB) (info : JVal)
    (action : JVal) : DB × Except String Unit :=
  match info.item "issue_id" with
  | .error e => (db, .error e)
  | .ok iid =>
      let newStatus : Except String JVal :=
        if action == JVal.str "closed" then .ok (JVal.bool false)
        else if action == JVal.str "reopened" then .ok (JVal.bool true)
        else .error "KeyError: status dict has no such action"
      match newStatus with
      | .error e => (db, .error e)
      | .ok st =>
          match db.getIssue iid with
          | none => (db, .error "AttributeError: NoneType has no attribute is_open")
          | some _ =>
              if commitOk then
                (db.updateIssue iid (fun r => { r with is_open := st }), .ok ())
              else
                (db, .error "SQLAlchemyError")

/-- helpers.issue_milestone_change: fetch the issue row; when the info dict
action equals milestoned, read info at the key milestone_id — a key
extract_issue_event_info never produces, so this subscript raises KeyError —
otherwise assign milestone None; then commit.  A missing row raises
AttributeError at the assignment (after the right-hand side is evaluated);
a failed commit raises SQLAlchemyError. -/
def issue_milestone_change (commitOk : Bool) (db : DB) (info : JVal) :
    DB × Except String Unit :=
  match info.item "issue_id" with
  | .error e => (db, .error e)
  | .ok iid =>
      match info.item "action" with
      | .error e => (db, .error e)
      | .ok act =>
          if act == JVal.str "milestoned" then
            match info.item "milestone_id" with
            | .error e => (db, .error e)
            | .ok mid =>
                match db.getIssue iid with
                | none =>
                    (db, .error "AttributeError: NoneType has no attribute milestone_id")
                | some _ =>
                    if commitOk then
                      (db.updateIssue iid
                        (fun r => { r with milestone_id := mid }), .ok ())
                    else
                      (db, .error "SQLAlchemyError")
          else
            match db.getIssue iid with
            | none =>
                (db, .error "AttributeError: NoneType has no attribute milestone_id")
            | some _ =>
                if commitOk then
                  (db.updateIssue iid
                    (fun r => { r with milestone_id := JVal.null }), .ok ())
                else
                  (db, .error "SQLAlchemyError")

/-- helpers.issue_label_change: read the label name from the info details,
resolve it with Label.query.filter_by(...).one() (NoResultFound when the
label table has no such name), fetch the issue row, then append or remove
the label id on the issue depending on whether the info action equals
labeled; list.remove raises ValueError when the id is absent.  Commit at
the end (SQLAlchemyError on failure, no try/except). -/
def issue_label_change (commitOk : Bool) (db : DB) (info : JVal) :
    DB × Except String Unit :=
  match (do (← info.item "details").item "label name" : Except String JVal) with
  | .error e => (db, .error e)
  | .ok lname =>
      match db.labels.find? (fun l => l.name == lname) with
      | none => (db, .error "NoResultFound: no row was found for one()")
      | some lab =>
          let label_id := JVal.num lab.id
          match info.item "issue_id" with
          | .error e => (db, .error e)
          | .ok iid =>
              match info.item "action" with
              | .error e => (db, .error e)
              | .ok act =>
                  match db.getIssue iid with
                  | none =>
                      (db, .error "AttributeError: NoneType has no attribute labels")
                  | some r =>
                      if act == JVal.str "labeled" then
                        if commitOk then
                          (db.updateIssue iid
                            (fun s => { s with labels := s.labels ++ [label_id] }),
                           .ok ())
                        else (db, .error "SQLAlchemyError")
                      else
                        if r.labels.contains label_id then
                          if commitOk then
                            (db.updateIssue iid
                              (fun s => { s with labels := s.labels.erase label_id }),
                             .ok ())
                          else (db, .error "SQLAlchemyError")
                        else
                          (db, .error "ValueError: x not in list")

/-- helpers.process_label_event_info.  For a created action a new Label row
is staged and committed.  Otherwise, with a truthy prior name (payload has
a changes key and changes.name.from is truthy), the source assigns the new
name to the bare result of Label.query.filter_by — a Query object, not a
row, since no one()/first() is applied — so no row is staged and the
following commit persists nothing: the store is unchanged and the call
returns normally.  In the remaining branch the source calls
db.session.remove(label); scoped_session.remove accepts no argument, so the
call raises TypeError. -/
def process_label_event_info (db : DB) (payload : JVal) :
    DB × Except String Unit :=
  match payload.item "action" with
  | .error e => (db, .error e)
  | .ok action =>
      match (do (← payload.item "label").item "name" : Except String JVal) with
      | .error e => (db, .error e)
      | .ok label_name =>
          let priorE : Except String JVal :=
            if payload.hasKey "changes" then do
              let c ← payload.item "changes"
              let n ← c.item "name"
              n.item "from"
            else .ok JVal.null
          match priorE with
          | .error e => (db, .error e)
          | .ok prior_name =>
              if action == JVal.str "created" then
                ({ db with
                    labels := db.labels ++ [LabelRec.mk db.nextLabelId label_name],
                    nextLabelId := db.nextLabelId + 1 }, .ok ())
              else if prior_name.truthy then
                (db, .ok ())
              else
                (db, .error "TypeError: remove takes no positional argument")

/-- helpers.process_milestone_event_info.  Mirrors the label processor: a
created action inserts a Milestone row; a truthy prior title (note the
source reads payload changes title directly, the whole from-dict, which is
truthy whenever present and non-empty) hits the same missing-one() rename
no-op; the remaining branch raises TypeError in db.session.remove. -/
def process_milestone_event_info (db : DB) (payload : JVal) :
    DB × Except String Unit :=
  match payload.item "action" with
  | .error e => (db, .error e)
  | .ok action =>
      match (do (← payload.item "milestone").item "title" : Except String JVal) with
      | .error e => (db, .error e)
      | .ok milestone_title =>
          let priorE : Except String JVal :=
            if payload.hasKey "changes" then do
              (← payload.item "changes").item "title"
            else .ok JVal.null
          match priorE with
          | .error e => (db, .error e)
          | .ok prior_title =>
              if action == JVal.str "created" then
                ({ db with
                    milestones :=
                      db.milestones ++
                        [MilestoneRec.mk db.nextMilestoneId milestone_title],
                    nextMilestoneId := db.nextMilestoneId + 1 }, .ok ())
              else if prior_title.truthy then
                (db, .ok ())
              else
                (db, .error "TypeError: remove takes no positional argument")

/-- An HTTP response as the handler builds it: body text and status code
(every handler response carries the text/plain content type). -/
structure Response where
  body : String
  status : Nat
deriving Repr

/-- webhook.__init__ MEH_RESPONSE: acknowledgment for recognized but
intentionally unprocessed notifications. -/
def MEH_RESPONSE : Response :=
  Response.mk "We may just circular-file that, but thanks!" 202

/-- webhook.__init__ NO_AUTH: the default response of the handler. -/
def NO_AUTH : Response := Response.mk "This is not the hook we seek." 403

/-- Outcome of the try block around json.loads and the two payload.get
calls in issues_hooklistener: either all three local names payload, action
and changes were bound, or an exception was caught by the bare except
clause, leaving the names assigned before the failure point bound — none
of them when json.loads itself raised, only payload when the parsed value
is not a dict and so has no get attribute. -/
inductive TryResult where
  | parsed : JVal → JVal → JVal → TryResult
  | failedAfterParse : JVal → TryResult
  | failed : TryResult

/-- webhook.__init__ issues_hooklistener, the single POST endpoint.  The
external JSON parser is the jsonLoads argument (none models json.loads
raising on an invalid body).  mutCommitOk and eventCommitOk are the success
flags of the (at most) two database commits a request performs: the entity
mutation commit and the Event append commit.  The result pairs the store
after the request with: ok (some r) when the handler returned response r,
ok none when control fell off the end of the Python function (the label and
milestone branches return nothing, which the surrounding framework turns
into a server error), and error e when an uncaught exception e escaped the
handler (also a server error).  Branch notes: the issue dispatch conditions
compare action to expressions like ("closed" or "reopened"), which the
Python or-operator collapses to their first literal, so only opened, edited,
closed, milestoned and labeled ever reach their helper. -/
def issues_hooklistener (hmacSha1Hex : String → List Nat → String)
    (jsonLoads : List Nat → Option JVal) (secretKey : String)
    (mutCommitOk eventCommitOk : Bool) (req : Request) (db : DB) :
    DB × Except String (Option Response) :=
  match is_github_hook hmacSha1Hex secretKey req with
  | .error e => (db, .error e)
  | .ok false => (db, .ok (some (Response.mk "Move along, nothing to see here" 401)))
  | .ok true =>
    let event_type := req.xGitHubEvent
    let tr : TryResult :=
      match jsonLoads req.data with
      | none => .failed
      | some p =>
          match p with
          | .obj _ =>
              .parsed p ((p.get "action").getD JVal.null)
                ((p.get "changes").getD JVal.null)
          | _ => .failedAfterParse p
    if event_type == some "issues" then
      match tr with
      | .failed => (db, .error "NameError: name action is not defined")
      | .failedAfterParse _ => (db, .error "NameError: name action is not defined")
      | .parsed payload action changes =>
          if is_desirable_issue_event action changes then
            match extract_issue_event_info payload action changes with
            | .error e => (db, .error e)
            | .ok info =>
                let step : DB × Except String Unit :=
                  if action == JVal.str "opened" then
                    add_new_issue db info
                  else if action == JVal.str "edited" then
                    issue_title_edit mutCommitOk db info
                  else if action == JVal.str "closed" then
                    issue_status_change mutCommitOk db info action
                  else if action == JVal.str "milestoned" then
                    issue_milestone_change mutCommitOk db info
                  else if action == JVal.str "labeled" then
                    issue_label_change mutCommitOk db info
                  else (db, .ok ())
                match step with
                | (db1, .error e) => (db1, .error e)
                | (db1, .ok _) =>
                    match add_new_event eventCommitOk db1 info with
                    | (db2, .error e) => (db2, .error e)
                    | (db2, .ok _) =>
                        (db2, .ok (some (Response.mk
                          "Yay! Data! *munch, munch, munch*" 200)))
          else
            (db, .ok (some MEH_RESPONSE))
    else if event_type == some "label" then
      match tr with
      | .failed => (db, .error "NameError: name payload is not defined")
      | .failedAfterParse p =>
          match process_label_event_info db p with
          | (db1, .error e) => (db1, .error e)
          | (db1, .ok _) => (db1, .ok none)
      | .parsed p _ _ =>
          match process_label_event_info db p with
          | (db1, .error e) => (db1, .error e)
          | (db1, .ok _) => (db1, .ok none)
    else if event_type == some "milestone" then
      match tr with
      | .failed => (db, .error "NameError: name action is not defined")
      | .failedAfterParse _ => (db, .error "NameError: name action is not defined")
      | .parsed p action _ =>
          if ["created", "edited", "deleted"].any
              (fun s => action == JVal.str s) then
            match process_milestone_event_info db p with
            | (db1, .error e) => (db1, .error e)
            | (db1, .ok _) => (db1, .ok none)
          else
            (db, .ok (some MEH_RESPONSE))
    else if event_type == some "ping" then
      (db, .ok (some (Response.mk "pong" 200)))
    else
      (db, .ok (some NO_AUTH))

/-! Concrete inputs used by the claim theorems. -/

/-- A fixed HMAC digest function whose digest is the string d, used where a
request with a matching signature header must pass validation. -/
def hmacD : String → List Nat → String := fun _ _ => "d"

/-- A request carrying the issues category header and a signature header
that matches hmacD, so that is_github_hook accepts it. -/
def reqIssuesOk : Request := Request.mk (some "issues") (some "sha1=d") [0]

/-- A desirable reopened notification for issue 42 (no milestone, no
changes map), exercising the status-change dispatch condition. -/
def payloadReopenedC1 : JVal :=
  JVal.obj [("action", JVal.str "reopened"),
            ("issue", JVal.obj [("number", JVal.num 42),
                                ("title", JVal.str "t"),
                                ("created_at", JVal.str "c"),
                                ("milestone", JVal.null),
                                ("updated_at", JVal.str "u")]),
            ("sender", JVal.obj [("login", JVal.str "alice")])]

/-- A store holding issue 42 in the closed state, the state a reopened
notification is supposed to flip to open. -/
def dbC1 : DB :=
  DB.mk [IssueRec.mk (JVal.num 42) (JVal.str "t") (JVal.str "c") JVal.null
           (JVal.bool false) []]
    [] [] [] 1 1

/-- A milestoned notification for issue 7 naming milestone m1. -/
def payloadMilestonedC2 : JVal :=
  JVal.obj [("action", JVal.str "milestoned"),
            ("issue", JVal.obj [("number", JVal.num 7),
                                ("title", JVal.str "t"),
                                ("created_at", JVal.str "c"),
                                ("milestone", JVal.obj [("title", JVal.str "m1")]),
                                ("updated_at", JVal.str "u")]),
            ("sender", JVal.obj [("login", JVal.str "alice")])]

/-- The paired unmilestoned notification for issue 7 (GitHub clears the
milestone field and sends no label field on this action). -/
def payloadUnmilestonedC2 : JVal :=
  JVal.obj [("action", JVal.str "unmilestoned"),
            ("issue", JVal.obj [("number", JVal.num 7),
                                ("title", JVal.str "t"),
                                ("created_at", JVal.str "c"),
                                ("milestone", JVal.null),
                                ("updated_at", JVal.str "u2")]),
            ("sender", JVal.obj [("login", JVal.str "alice")])]

/-- A store holding issue 7 with milestone reference 5. -/
def dbC2 : DB :=
  DB.mk [IssueRec.mk (JVal.num 7) (JVal.str "t") (JVal.str "c") (JVal.num 5)
           (JVal.bool true) []]
    [] [] [] 1 1

/-- A store holding open issue 9, used by the malformed-JSON and atomicity
scenarios. -/
def dbC3 : DB :=
  DB.mk [IssueRec.mk (JVal.num 9) (JVal.str "t") (JVal.str "c") JVal.null
           (JVal.bool true) []]
    [] [] [] 1 1

/-- A desirable closed notification for issue 9. -/
def payloadClosedC4 : JVal :=
  JVal.obj [("action", JVal.str "closed"),
            ("issue", JVal.obj [("number", JVal.num 9),
                                ("title", JVal.str "t"),
                                ("created_at", JVal.str "c"),
                                ("milestone", JVal.null),
                                ("updated_at", JVal.str "u")]),
            ("sender", JVal.obj [("login", JVal.str "bob")])]

/-- A store holding open issue 9 for the atomicity counterexample. -/
def dbC4 : DB :=
  DB.mk [IssueRec.mk (JVal.num 9) (JVal.str "t") (JVal.str "c") JVal.null
           (JVal.bool true) []]
    [] [] [] 1 1

/-- An unmilestoned payload whose issue still reports milestone m1 and
which, as GitHub sends for this action, carries no label field. -/
def payloadUnmilestonedC7 : JVal :=
  JVal.obj [("action", JVal.str "unmilestoned"),
            ("issue", JVal.obj [("number", JVal.num 7),
                                ("title", JVal.str "t"),
                                ("created_at", JVal.str "c"),
                                ("milestone", JVal.obj [("title", JVal.str "m1")]),
                                ("updated_at", JVal.str "u")]),
            ("sender", JVal.obj [("login", JVal.str "alice")])]

/-- A label table holding only the label named bug (id 1). -/
def dbC8 : DB := DB.mk [] [LabelRec.mk 1 (JVal.str "bug")] [] [] 2 1

/-- The rename notification of the spec scenario: category label, action
edited, changes carrying the prior name bug, new name defect. -/
def payloadLabelEditC8 : JVal :=
  JVal.obj [("action", JVal.str "edited"),
            ("label", JVal.obj [("name", JVal.str "defect")]),
            ("changes", JVal.obj [("name", JVal.obj [("from", JVal.str "bug")])])]

/-- An empty store for the authentication claims. -/
def dbEmpty : DB := DB.mk [] [] [] [] 1 1

/-! Claim theorems. -/

/-- C1: the claim states that a desirable reopened notification is routed
to the status-change transition and sets the issue open.  In the source the
dispatch guard is action == ("closed" or "reopened"), which the Python
or-operator collapses to action == "closed", so a reopened notification
matches no dispatch branch: issue 42 stays closed while the event is still
appended (after which the mislabelled format placeholder in the success log
of add_new_event raises KeyError).  This contradicts the spec table
(reopened maps the issue to Open), as the spec design notes themselves
point out: the code, not the claim, is wrong. -/
theorem reopened_event_leaves_issue_closed :
    issues_hooklistener hmacD (fun _ => some payloadReopenedC1) "k" true true
        reqIssuesOk dbC1 =
      ({ dbC1 with
          events := [EventRec.mk (JVal.num 42) (JVal.str "alice")
            (JVal.str "reopened") JVal.null (JVal.str "u")] },
       Except.error "KeyError: evg") ∧
    ((issues_hooklistener hmacD (fun _ => some payloadReopenedC1) "k" true true
        reqIssuesOk dbC1).1.getIssue (JVal.num 42)).map IssueRec.is_open =
      some (JVal.bool false) :=
  ⟨rfl, rfl⟩

/-- C2: the claim states that a milestoned event followed by an
unmilestoned event leaves the issue with no milestone reference.  In the
source the milestoned event reaches issue_milestone_change, which reads the
key milestone_id that the extractor never produces and dies with KeyError
before mutating anything; the unmilestoned event fails the collapsed guard
action == ("milestoned" or "unmilestoned") == "milestoned", is never routed
to the milestone transition, and its extraction dies looking for a label
key.  The pair therefore leaves the store untouched: issue 7 still carries
milestone reference 5, contradicting the claim (and the spec table entry
that unmilestoned clears the milestone, which is clearly the intent). -/
theorem milestoned_unmilestoned_pair_keeps_milestone :
    issues_hooklistener hmacD (fun _ => some payloadUnmilestonedC2) "k" true
        true reqIssuesOk
        (issues_hooklistener hmacD (fun _ => some payloadMilestonedC2) "k"
          true true reqIssuesOk dbC2).1 =
      (dbC2, Except.error "KeyError: label") ∧
    (dbC2.getIssue (JVal.num 7)).map IssueRec.milestone_id =
      some (JVal.num 5) :=
  ⟨rfl, rfl⟩

/-- C3: the claim states that a request with a valid signature and category
header but an invalid JSON body creates no record and is answered with a
200-class acknowledgment.  The no-persistence half holds, but the handler
only logs inside its except clause and then falls through: the names
action, changes and payload were never bound, so the issues branch raises
NameError, an unhandled server error rather than an acknowledgment.  The
spec states the fail-soft intent (and the except clause shows it): the code
is the slip. -/
theorem malformed_json_raises_name_error :
    issues_hooklistener hmacD (fun _ => none) "k" true true reqIssuesOk dbC3 =
      (dbC3, Except.error "NameError: name action is not defined") :=
  rfl

/-- C4 counterexample: a closed notification whose issue mutation commit
succeeds and whose Event append commit fails.  The status change persists
(issue 9 ends closed), no Event row exists, and the request is even
answered 200: mutation and event append are not atomic as a unit. -/
theorem closed_event_commit_failure_not_atomic :
    issues_hooklistener hmacD (fun _ => some payloadClosedC4) "k" true false
        reqIssuesOk dbC4 =
      ({ dbC4 with
          issues := [IssueRec.mk (JVal.num 9) (JVal.str "t") (JVal.str "c")
            JVal.null (JVal.bool false) []] },
       Except.ok (some (Response.mk "Yay! Data! *munch, munch, munch*" 200))) ∧
    (issues_hooklistener hmacD (fun _ => some payloadClosedC4) "k" true false
        reqIssuesOk dbC4).1.events = [] ∧
    ((issues_hooklistener hmacD (fun _ => some payloadClosedC4) "k" true false
        reqIssuesOk dbC4).1.getIssue (JVal.num 9)).map IssueRec.is_open =
      some (JVal.bool false) :=
  ⟨rfl, rfl, rfl⟩

/-- C4 amended: the entity mutation and the Event append run as separate
transactions committed independently; a failed Event insertion is rolled
back by itself, leaving the whole store — in particular an already
committed issue mutation — exactly as it was before the append. -/
theorem failed_event_append_preserves_store (db : DB) (info : JVal) :
    (add_new_event false db info).1 = db := by
  unfold add_new_event
  split <;> rfl

/-- C5 counterexample: a signature header that carries the sha1 scheme
prefix but a second equals sign makes the unpacking of split fail, so the
check raises ValueError instead of returning a boolean — the claim that it
never throws for malformed input is false. -/
theorem extra_equals_raises_value_error :
    signature_check (fun _ _ => "") "k" "sha1=a=b" [] =
      Except.error "ValueError: too many values to unpack" :=
  rfl

/-- C5 amended: for every digest function, key, header and payload, the
check returns false without throwing whenever the scheme prefix sha1= is
absent (malformed or unrecognized schemes included); headers that do carry
the prefix can still raise, as the counterexample shows. -/
theorem no_sha1_prefix_returns_false
    (hmacSha1Hex : String → List Nat → String) (key ps : String)
    (payload : List Nat) (h : pyStartsWith ps "sha1=" = false) :
    signature_check hmacSha1Hex key ps payload = Except.ok false := by
  unfold signature_check
  simp [h]

/-- Witness for the amended C5 theorem at a concrete unrecognized-scheme
header. -/
theorem no_sha1_prefix_returns_false_witness :
    signature_check (fun _ _ => "") "k" "md5=x" [] = Except.ok false :=
  no_sha1_prefix_returns_false (fun _ _ => "") "k" "md5=x" [] (by decide)

/-- C6 counterexample: a changes map that contains the title key bound to a
falsy value (here None).  The key is present, yet the edited action is not
desirable, because the source tests the truthiness of changes.get rather
than key presence — so desirability is not exactly key presence. -/
theorem edited_title_key_with_falsy_value_not_desirable :
    ((JVal.obj [("title", JVal.null)]).get "title").isSome = true ∧
    is_desirable_issue_event (JVal.str "edited")
        (JVal.obj [("title", JVal.null)]) = false :=
  ⟨rfl, rfl⟩

/-- C6 amended: the seven listed actions are desirable for every changes
map; assigned and unassigned never are; and an edited action is desirable
exactly when the changes map is truthy and carries a truthy value under the
title key (key presence alone does not suffice). -/
theorem desirable_issue_event_characterized (a : String) (changes : JVal) :
    (a ∈ ["opened", "closed", "reopened", "labeled", "unlabeled",
          "milestoned", "unmilestoned"] →
       is_desirable_issue_event (JVal.str a) changes = true) ∧
    (a ∈ ["assigned", "unassigned"] →
       is_desirable_issue_event (JVal.str a) changes = false) ∧
    (is_desirable_issue_event (JVal.str "edited") changes =
       if changes.truthy then ((changes.get "title").getD JVal.null).truthy
       else false) := by
  refine ⟨fun h => ?_, fun h => ?_, ?_⟩
  · fin_cases h <;> rfl
  · fin_cases h <;> rfl
  · rfl

/-- Witness for the amended C6 theorem: a desirable opened action, a
non-desirable assigned action, and an edited action with a truthy title
change. -/
theorem desirable_issue_event_characterized_witness :
    is_desirable_issue_event (JVal.str "opened") JVal.null = true ∧
    is_desirable_issue_event (JVal.str "assigned") JVal.null = false :=
  ⟨(desirable_issue_event_characterized "opened" JVal.null).1 (by decide),
   (desirable_issue_event_characterized "assigned" JVal.null).2.1 (by decide)⟩

/-- C7: the claim states that extraction of an unmilestoned payload puts
the current milestone title into the detail value.  The source guard is
action == ("milestoned" or "demilestoned"), which collapses to
"milestoned", so an unmilestoned action falls into the label branch and
subscripts the payload at the key label — absent on milestone events — and
the extractor dies with KeyError instead of producing the milestone-title
detail.  The spec (and the consistent use of unmilestoned elsewhere in the
source) is the intent; the code is the slip. -/
theorem unmilestoned_extract_takes_label_branch :
    extract_issue_event_info payloadUnmilestonedC7 (JVal.str "unmilestoned")
        JVal.null =
      Except.error "KeyError: label" :=
  rfl

/-- C8: the claim states that a rename notification renames the Label found
by its prior name and creates no new row.  No row is created, but the
source assigns the new name to the bare result of Label.query.filter_by — a
query object, with no one() or first() applied — so nothing is staged and
the commit persists nothing: the store still holds the label named bug and
no label named defect.  The spec scenario is the clear intent (the sibling
issue_label_change does call one()); the code is the slip. -/
theorem label_rename_leaves_store_unchanged :
    process_label_event_info dbC8 payloadLabelEditC8 = (dbC8, Except.ok ()) ∧
    dbC8.labels = [LabelRec.mk 1 (JVal.str "bug")] :=
  ⟨rfl, rfl⟩

/-- C9 counterexample: a request carrying the category header but a
signature that fails the check is answered 401 — the same status as a
missing category header — not the 403 the claim reserves for it. -/
theorem invalid_signature_answered_401 :
    issues_hooklistener (fun _ _ => "aaaa") (fun _ => none) "k" true true
        (Request.mk (some "issues") (some "sha1=beef") [0]) dbEmpty =
      (dbEmpty,
       Except.ok (some (Response.mk "Move along, nothing to see here" 401))) ∧
    (401 : Nat) ≠ 403 :=
  ⟨rfl, by decide⟩

/-- C9 amended: every request the hook validation rejects — invalid
signature included — is answered 401 with the store untouched; 403 is only
produced for requests that pass validation but carry an unrecognized
category. -/
theorem rejected_hook_answered_401
    (hmacSha1Hex : String → List Nat → String)
    (jsonLoads : List Nat → Option JVal) (key : String)
    (mutCommitOk eventCommitOk : Bool) (req : Request) (db : DB)
    (h : is_github_hook hmacSha1Hex key req = Except.ok false) :
    issues_hooklistener hmacSha1Hex jsonLoads key mutCommitOk eventCommitOk
        req db =
      (db, Except.ok (some (Response.mk "Move along, nothing to see here" 401))) := by
  unfold issues_hooklistener
  rw [h]

/-- Witness for the amended C9 theorem at a concrete request whose
signature does not match the digest. -/
theorem rejected_hook_answered_401_witness :
    issues_hooklistener (fun _ _ => "aaaa") (fun _ => none) "kk" true true
        (Request.mk (some "issues") (some "sha1=ffff") []) dbEmpty =
      (dbEmpty,
       Except.ok (some (Response.mk "Move along, nothing to see here" 401))) :=
  rejected_hook_answered_401 (fun _ _ => "aaaa") (fun _ => none) "kk" true
    true (Request.mk (some "issues") (some "sha1=ffff") []) dbEmpty rfl

/-- C10: a request with no signature header at all is rejected by
is_github_hook regardless of the body and even when the category header is
present: the falsy header value short-circuits to False before any digest
is computed. -/
theorem missing_signature_header_rejected
    (hmacSha1Hex : String → List Nat → String) (key : String)
    (req : Request) (h : req.xHubSignature = none) :
    is_github_hook hmacSha1Hex key req = Except.ok false := by
  cases hev : req.xGitHubEvent <;> simp [is_github_hook, hev, h]

/-- Witness for the C10 theorem at a concrete request carrying the issues
category header and no signature header. -/
theorem missing_signature_header_rejected_witness :
    is_github_hook (fun _ _ => "d") "k"
        (Request.mk (some "issues") none [7]) = Except.ok false :=
  missing_signature_header_rejected (fun _ _ => "d") "k"
    (Request.mk (some "issues") none [7]) rfl

end Ochazuke
